import Mathlib

/-!
Verification of the merge engine of the `my-app` repository.

The embedded code is `mergeFiles` from `src/lib/file-processor.ts` and the
`POST` handler of the merge API route.  JavaScript rows (`Record<string, any>`)
are modelled as association lists with unique keys, built from the empty object
by a sequence of property assignments; reading an absent property yields the
JavaScript `undefined` value, modelled by `JValue.undef`, while the engine's
explicit "no value" marker is the JavaScript `null`, modelled by `JValue.null`.
-/

namespace MyApp

/-- A JavaScript scalar value as it occurs in a parsed row: a string, a
number, a boolean, the explicit `null`, or `undefined` (absent). -/
inductive JValue where
  | str (s : String)
  | num (n : Int)
  | boolean (b : Bool)
  | null
  | undef
deriving DecidableEq

/-- A JavaScript value is "null-like": the explicit `null` marker written by
the engine, or `undefined` as read from an absent property. -/
def isNoValue : JValue → Bool
  | JValue.null => true
  | JValue.undef => true
  | _ => false

/-- A JavaScript object used as a table row: an association list from
property names to values.  Objects built by the engine have unique keys. -/
abbrev Row := List (String × JValue)

/-- Property read `row[k]`: the value at the first entry with key `k`,
or `undefined` when the key is absent. -/
def getV : Row → String → JValue
  | [], _ => JValue.undef
  | (k', v') :: r, k => if k' == k then v' else getV r k

/-- Property assignment `row[k] = v`: overwrite the existing entry for `k`
in place, or append a new entry when `k` is absent. -/
def setV : Row → String → JValue → Row
  | [], k, v => [(k, v)]
  | (k', v') :: r, k, v =>
      if k' == k then (k, v) :: r else (k', v') :: setV r k v

/-- The property names of a row, in insertion order. -/
def rowKeys (r : Row) : List String := r.map (fun p => p.1)

/-- Perform a sequence of property assignments on a row, first to last. -/
def applyWrites (ws : List (String × JValue)) (r : Row) : Row :=
  ws.foldl (fun acc p => setV acc p.1 p.2) r

/-- The value left in a property after a sequence of assignments:
the value of the last write whose key is `k`, if any. -/
def lookupLast : List (String × JValue) → String → Option JValue
  | [], _ => none
  | w :: ws, k =>
      match lookupLast ws k with
      | some v => some v
      | none => if w.1 == k then some w.2 else none

/-- Structure `ParsedFile` from `file-processor.ts`: name, ordered headers, data rows,
and a row count field. -/
structure ParsedFile where
  name : String
  headers : List String
  data : List Row
  rowCount : Nat
deriving DecidableEq

/-- Structure `ColumnMapping` from `file-processor.ts`: one proposed correspondence. -/
structure ColumnMapping where
  column1 : String
  column2 : String
  confidence : Rat
  reason : String
  mergedName : String
deriving DecidableEq

/-- Structure `MergeResult` from `file-processor.ts`. -/
structure MergeResult where
  headers : List String
  data : List Row
  mappings : List ColumnMapping
  rowCount : Nat
  sourceFiles : List String
deriving DecidableEq

/-- The key set of the `mappingMap` built by `mergeFiles`: the `column2`
fields of the mappings (only membership in the map is ever queried). -/
def mappingMapKeys (mappings : List ColumnMapping) : List String :=
  mappings.map (fun m => m.column2)

/-- The `usedColumns1` set built by `mergeFiles`: the `column1` fields. -/
def usedColumns1 (mappings : List ColumnMapping) : List String :=
  mappings.map (fun m => m.column1)

/-- The filter `file1.headers.filter((h) => !usedColumns1.has(h))` used by
`mergeFiles` both for the header list and in each per-row loop. -/
def unmapped1 (file1 : ParsedFile) (mappings : List ColumnMapping) :
    List String :=
  file1.headers.filter (fun h => !(usedColumns1 mappings).contains h)

/-- The filter `file2.headers.filter((h) => !mappingMap.has(h))` used by
`mergeFiles` both for the header list and in each per-row loop. -/
def unmapped2 (file2 : ParsedFile) (mappings : List ColumnMapping) :
    List String :=
  file2.headers.filter (fun h => !(mappingMapKeys mappings).contains h)

/-- The merged row produced from one row of `file1`.  Mirrors the first
`forEach` body of `mergeFiles`: copy unmapped `file1` columns, then write
each mapping's `mergedName` from `row[column1]`, then initialize unmapped
`file2` columns to `null`; assignments happen in exactly this order. -/
def mergeRow1 (file1 file2 : ParsedFile) (mappings : List ColumnMapping)
    (row : Row) : Row :=
  applyWrites
    ((unmapped1 file1 mappings).map (fun h => (h, getV row h))
      ++ mappings.map (fun m => (m.mergedName, getV row m.column1))
      ++ (unmapped2 file2 mappings).map (fun h => (h, JValue.null)))
    []

/-- The merged row produced from one row of `file2`.  Mirrors the second
`forEach` body of `mergeFiles`: initialize unmapped `file1` columns to
`null`, then write each mapping's `mergedName` from `row[column2]`, then
copy unmapped `file2` columns; assignments happen in exactly this order. -/
def mergeRow2 (file1 file2 : ParsedFile) (mappings : List ColumnMapping)
    (row : Row) : Row :=
  applyWrites
    ((unmapped1 file1 mappings).map (fun h => (h, JValue.null))
      ++ mappings.map (fun m => (m.mergedName, getV row m.column2))
      ++ (unmapped2 file2 mappings).map (fun h => (h, getV row h)))
    []

/-- Function `mergeFiles` from `file-processor.ts`. -/
def mergeFiles (file1 file2 : ParsedFile) (mappings : List ColumnMapping) :
    MergeResult :=
  let mergedHeaders :=
    unmapped1 file1 mappings
      ++ mappings.map (fun m => m.mergedName)
      ++ unmapped2 file2 mappings
  let mergedData :=
    file1.data.map (mergeRow1 file1 file2 mappings)
      ++ file2.data.map (mergeRow2 file1 file2 mappings)
  { headers := mergedHeaders
    data := mergedData
    mappings := mappings
    rowCount := mergedData.length
    sourceFiles := [file1.name, file2.name] }

/-- The §3 invariant on a correspondence list: source columns exist in their
datasets and no source column is consumed twice. -/
def ValidMappings (file1 file2 : ParsedFile)
    (mappings : List ColumnMapping) : Prop :=
  (∀ m ∈ mappings, m.column1 ∈ file1.headers ∧ m.column2 ∈ file2.headers) ∧
  (mappings.map (fun m => m.column1)).Nodup ∧
  (mappings.map (fun m => m.column2)).Nodup

instance (file1 file2 : ParsedFile) (mappings : List ColumnMapping) :
    Decidable (ValidMappings file1 file2 mappings) := by
  unfold ValidMappings; infer_instance

/-- The `mappings` field of a merge request body: either a JSON array of
column mappings, or any non-array JSON value (`Array.isArray` fails). -/
inductive MappingsPayload where
  | array (mappings : List ColumnMapping)
  | nonArray
deriving DecidableEq

/-- The response of the merge API route: a JSON body with status 200
(carrying the merge result), 400, or 500. -/
inductive MergeResponse where
  | ok (result : MergeResult)
  | badRequest (error : String)
  | serverError (error : String)
deriving DecidableEq

/-- The `POST` handler of the merge API route: reject with 400 when either
file is missing or the mappings payload is not an array, otherwise call
`mergeFiles` and return its result.  (The route's catch-all 500 branch is
unreachable here because the embedded engine is total.) -/
def POST (file1 file2 : Option ParsedFile) (mappings : MappingsPayload) :
    MergeResponse :=
  match file1, file2 with
  | some f1, some f2 =>
      match mappings with
      | MappingsPayload.array ms => MergeResponse.ok (mergeFiles f1 f2 ms)
      | MappingsPayload.nonArray =>
          MergeResponse.badRequest "Mappings must be an array"
  | _, _ => MergeResponse.badRequest "Both files are required"

/-! ### Basic lemmas about row assignment -/

theorem beq_str_false {a b : String} (h : ¬b = a) : (a == b) = false := by
  cases hab : a == b
  · rfl
  · exact absurd (eq_of_beq hab).symm h

theorem getV_setV (r : Row) (k : String) (v : JValue) (k' : String) :
    getV (setV r k v) k' = if k' = k then v else getV r k' := by
  induction r with
  | nil =>
      by_cases h : k' = k
      · subst h; simp [setV, getV]
      · rw [if_neg h]
        simp [setV, getV, beq_str_false h]
  | cons p r ih =>
      obtain ⟨k₀, v₀⟩ := p
      by_cases h0 : k₀ = k
      · subst h0
        by_cases h1 : k' = k₀
        · subst h1; simp [setV, getV]
        · simp [setV, getV, beq_str_false h1, h1]
      · have hb0 : (k₀ == k) = false := beq_str_false (fun h => h0 h.symm)
        by_cases h1 : k' = k₀
        · subst h1
          simp [setV, getV, hb0, h0]
        · simp [setV, getV, hb0, beq_str_false h1, ih]

theorem applyWrites_cons (w : String × JValue) (ws : List (String × JValue))
    (r : Row) :
    applyWrites (w :: ws) r = applyWrites ws (setV r w.1 w.2) := rfl

theorem getV_applyWrites (ws : List (String × JValue)) (r : Row)
    (k : String) :
    getV (applyWrites ws r) k = (lookupLast ws k).getD (getV r k) := by
  induction ws generalizing r with
  | nil => rfl
  | cons w ws ih =>
      rw [applyWrites_cons, ih]
      cases hw : lookupLast ws k with
      | some v => simp [lookupLast, hw]
      | none =>
          simp only [lookupLast, hw, Option.getD, getV_setV]
          by_cases h : k = w.1
          · subst h; simp
          · simp [beq_str_false h, h]

theorem lookupLast_append_some (ws₁ ws₂ : List (String × JValue))
    (k : String) (v : JValue) (h : lookupLast ws₂ k = some v) :
    lookupLast (ws₁ ++ ws₂) k = some v := by
  induction ws₁ with
  | nil => simpa using h
  | cons w ws₁ ih => simp [lookupLast, ih]

theorem lookupLast_append_none (ws₁ ws₂ : List (String × JValue))
    (k : String) (h : lookupLast ws₂ k = none) :
    lookupLast (ws₁ ++ ws₂) k = lookupLast ws₁ k := by
  induction ws₁ with
  | nil => simpa using h
  | cons w ws₁ ih => rw [List.cons_append]; simp only [lookupLast, ih]

theorem lookupLast_eq_none (ws : List (String × JValue)) (k : String)
    (h : ∀ w ∈ ws, w.1 ≠ k) : lookupLast ws k = none := by
  induction ws with
  | nil => rfl
  | cons w ws ih =>
      have hw : (w.1 == k) = false :=
        beq_str_false (fun h' => (h w (by simp)) h'.symm)
      simp [lookupLast, ih (fun y hy => h y (by simp [hy])), hw]

theorem lookupLast_map_none {α : Type} (L : List α) (key : α → String)
    (gv : α → JValue) (k : String) (h : ∀ x ∈ L, key x ≠ k) :
    lookupLast (L.map (fun x => (key x, gv x))) k = none := by
  apply lookupLast_eq_none
  intro w hw
  obtain ⟨x, hx, rfl⟩ := List.mem_map.mp hw
  exact h x hx

theorem lookupLast_map_self (L : List String) (gv : String → JValue)
    (k : String) (h : k ∈ L) :
    lookupLast (L.map (fun x => (x, gv x))) k = some (gv k) := by
  induction L with
  | nil => cases h
  | cons x L ih =>
      by_cases hk : k ∈ L
      · simp [lookupLast, ih hk]
      · have hx : x = k := by
          rcases List.mem_cons.mp h with h' | h'
          · exact h'.symm
          · exact absurd h' hk
        subst hx
        have hnone : lookupLast (L.map (fun y => (y, gv y))) x = none :=
          lookupLast_map_none L (fun y => y) gv x
            (fun y hy h' => hk (h' ▸ hy))
        simp [lookupLast, hnone]

theorem lookupLast_map_last {α : Type} (L₁ L₂ : List α) (x : α)
    (key : α → String) (gv : α → JValue)
    (h2 : ∀ y ∈ L₂, key y ≠ key x) :
    lookupLast ((L₁ ++ x :: L₂).map (fun y => (key y, gv y))) (key x) =
      some (gv x) := by
  rw [List.map_append]
  apply lookupLast_append_some
  have hnone : lookupLast (L₂.map (fun y => (key y, gv y))) (key x) = none :=
    lookupLast_map_none L₂ key gv (key x) h2
  simp [lookupLast, hnone]

theorem rowKeys_setV (r : Row) (k : String) (v : JValue) (k' : String) :
    k' ∈ rowKeys (setV r k v) ↔ k' ∈ rowKeys r ∨ k' = k := by
  induction r with
  | nil => simp [setV, rowKeys, eq_comm]
  | cons p r ih =>
      obtain ⟨k₀, v₀⟩ := p
      by_cases h0 : k₀ = k
      · subst h0
        simp [setV, rowKeys]
        tauto
      · simp [setV, rowKeys, beq_str_false (fun h => h0 h.symm)] at *
        tauto

theorem rowKeys_applyWrites (ws : List (String × JValue)) (r : Row)
    (k : String) :
    k ∈ rowKeys (applyWrites ws r) ↔
      k ∈ rowKeys r ∨ k ∈ ws.map (fun w => w.1) := by
  induction ws generalizing r with
  | nil => simp [applyWrites]
  | cons w ws ih =>
      rw [applyWrites_cons, ih, rowKeys_setV]
      simp
      tauto

/-! ### Field values of merged rows -/

theorem mergeRow1_getV_unmapped2 (file1 file2 : ParsedFile)
    (mappings : List ColumnMapping) (row : Row) (h : String)
    (hh : h ∈ unmapped2 file2 mappings) :
    getV (mergeRow1 file1 file2 mappings row) h = JValue.null := by
  unfold mergeRow1
  rw [getV_applyWrites, lookupLast_append_some _ _ _ _
    (lookupLast_map_self _ (fun _ => JValue.null) h hh)]
  rfl

theorem mergeRow2_getV_unmapped2 (file1 file2 : ParsedFile)
    (mappings : List ColumnMapping) (row : Row) (h : String)
    (hh : h ∈ unmapped2 file2 mappings) :
    getV (mergeRow2 file1 file2 mappings row) h = getV row h := by
  unfold mergeRow2
  rw [getV_applyWrites, lookupLast_append_some _ _ _ _
    (lookupLast_map_self _ (fun x => getV row x) h hh)]
  rfl

theorem nodup_mergedName_tail {s t : List ColumnMapping} {m : ColumnMapping}
    (hnodup : ((s ++ m :: t).map (fun m => m.mergedName)).Nodup) :
    ∀ y ∈ t, y.mergedName ≠ m.mergedName := by
  intro y hy
  have hsplit :
      (s.map (fun m => m.mergedName)
        ++ m.mergedName :: t.map (fun m => m.mergedName)).Nodup := by
    simpa using hnodup
  have h2 := (List.nodup_cons.mp hsplit.of_append_right).1
  exact fun h' => h2 (h' ▸ List.mem_map_of_mem _ hy)

theorem mergeRow1_getV_merged (file1 file2 : ParsedFile)
    (mappings : List ColumnMapping) (row : Row) (m : ColumnMapping)
    (hm : m ∈ mappings)
    (hnodup : (mappings.map (fun m => m.mergedName)).Nodup)
    (hno2 : m.mergedName ∉ unmapped2 file2 mappings) :
    getV (mergeRow1 file1 file2 mappings row) m.mergedName =
      getV row m.column1 := by
  unfold mergeRow1
  have hB : lookupLast
      ((unmapped2 file2 mappings).map (fun h => (h, JValue.null)))
      m.mergedName = none := by
    apply lookupLast_eq_none
    intro w hw
    obtain ⟨x, hx, rfl⟩ := List.mem_map.mp hw
    show x ≠ m.mergedName
    exact fun h' => hno2 (h' ▸ hx)
  rw [getV_applyWrites, lookupLast_append_none _ _ _ hB]
  obtain ⟨s, t, hst⟩ := List.append_of_mem hm
  subst hst
  have hM : lookupLast
      ((s ++ m :: t).map (fun m => (m.mergedName, getV row m.column1)))
      m.mergedName = some (getV row m.column1) :=
    lookupLast_map_last s t m (fun m => m.mergedName)
      (fun m' => getV row m'.column1) (nodup_mergedName_tail hnodup)
  rw [lookupLast_append_some _ _ _ _ hM]
  rfl

theorem mergeRow2_getV_merged (file1 file2 : ParsedFile)
    (mappings : List ColumnMapping) (row : Row) (m : ColumnMapping)
    (hm : m ∈ mappings)
    (hnodup : (mappings.map (fun m => m.mergedName)).Nodup)
    (hno2 : m.mergedName ∉ unmapped2 file2 mappings) :
    getV (mergeRow2 file1 file2 mappings row) m.mergedName =
      getV row m.column2 := by
  unfold mergeRow2
  have hB : lookupLast
      ((unmapped2 file2 mappings).map (fun h => (h, getV row h)))
      m.mergedName = none := by
    apply lookupLast_eq_none
    intro w hw
    obtain ⟨x, hx, rfl⟩ := List.mem_map.mp hw
    show x ≠ m.mergedName
    exact fun h' => hno2 (h' ▸ hx)
  rw [getV_applyWrites, lookupLast_append_none _ _ _ hB]
  obtain ⟨s, t, hst⟩ := List.append_of_mem hm
  subst hst
  have hM : lookupLast
      ((s ++ m :: t).map (fun m => (m.mergedName, getV row m.column2)))
      m.mergedName = some (getV row m.column2) :=
    lookupLast_map_last s t m (fun m => m.mergedName)
      (fun m' => getV row m'.column2) (nodup_mergedName_tail hnodup)
  rw [lookupLast_append_some _ _ _ _ hM]
  rfl

theorem mergeRow1_getV_unmapped1 (file1 file2 : ParsedFile)
    (mappings : List ColumnMapping) (row : Row) (h : String)
    (hh : h ∈ unmapped1 file1 mappings)
    (hnm : h ∉ mappings.map (fun m => m.mergedName))
    (hn2 : h ∉ unmapped2 file2 mappings) :
    getV (mergeRow1 file1 file2 mappings row) h = getV row h := by
  unfold mergeRow1
  have hB : lookupLast
      ((unmapped2 file2 mappings).map (fun h => (h, JValue.null))) h =
      none := by
    apply lookupLast_eq_none
    intro w hw
    obtain ⟨x, hx, rfl⟩ := List.mem_map.mp hw
    show x ≠ h
    exact fun h' => hn2 (h' ▸ hx)
  have hM : lookupLast
      (mappings.map (fun m => (m.mergedName, getV row m.column1))) h =
      none := by
    apply lookupLast_eq_none
    intro w hw
    obtain ⟨x, hx, rfl⟩ := List.mem_map.mp hw
    show x.mergedName ≠ h
    exact fun h' => hnm (h' ▸ List.mem_map_of_mem _ hx)
  have hA : lookupLast
      ((unmapped1 file1 mappings).map (fun h => (h, getV row h))) h =
      some (getV row h) :=
    lookupLast_map_self _ (fun x => getV row x) h hh
  rw [getV_applyWrites, lookupLast_append_none _ _ _ hB,
    lookupLast_append_none _ _ _ hM, hA]
  rfl

theorem mergeRow2_getV_unmapped1 (file1 file2 : ParsedFile)
    (mappings : List ColumnMapping) (row : Row) (h : String)
    (hh : h ∈ unmapped1 file1 mappings)
    (hnm : h ∉ mappings.map (fun m => m.mergedName))
    (hn2 : h ∉ unmapped2 file2 mappings) :
    getV (mergeRow2 file1 file2 mappings row) h = JValue.null := by
  unfold mergeRow2
  have hB : lookupLast
      ((unmapped2 file2 mappings).map (fun h => (h, getV row h))) h =
      none := by
    apply lookupLast_eq_none
    intro w hw
    obtain ⟨x, hx, rfl⟩ := List.mem_map.mp hw
    show x ≠ h
    exact fun h' => hn2 (h' ▸ hx)
  have hM : lookupLast
      (mappings.map (fun m => (m.mergedName, getV row m.column2))) h =
      none := by
    apply lookupLast_eq_none
    intro w hw
    obtain ⟨x, hx, rfl⟩ := List.mem_map.mp hw
    show x.mergedName ≠ h
    exact fun h' => hnm (h' ▸ List.mem_map_of_mem _ hx)
  have hA : lookupLast
      ((unmapped1 file1 mappings).map (fun h => (h, JValue.null))) h =
      some JValue.null :=
    lookupLast_map_self _ (fun _ => JValue.null) h hh
  rw [getV_applyWrites, lookupLast_append_none _ _ _ hB,
    lookupLast_append_none _ _ _ hM, hA]
  rfl

theorem mergeRow1_rowKeys (file1 file2 : ParsedFile)
    (mappings : List ColumnMapping) (row : Row) (k : String) :
    k ∈ rowKeys (mergeRow1 file1 file2 mappings row) ↔
      k ∈ (mergeFiles file1 file2 mappings).headers := by
  unfold mergeRow1
  rw [rowKeys_applyWrites]
  simp [mergeFiles, rowKeys]

theorem mergeRow2_rowKeys (file1 file2 : ParsedFile)
    (mappings : List ColumnMapping) (row : Row) (k : String) :
    k ∈ rowKeys (mergeRow2 file1 file2 mappings row) ↔
      k ∈ (mergeFiles file1 file2 mappings).headers := by
  unfold mergeRow2
  rw [rowKeys_applyWrites]
  simp [mergeFiles, rowKeys]

/-! ### Example inputs

The concrete scenario from the specification: two one-row files joined by a
single correspondence merging `email` with `e-mail`. -/

def exFileA : ParsedFile :=
  { name := "A.csv"
    headers := ["email", "name"]
    data := [[("email", JValue.str "a@x.com"), ("name", JValue.str "Ann")]]
    rowCount := 1 }

def exFileB : ParsedFile :=
  { name := "B.csv"
    headers := ["e-mail", "age"]
    data := [[("e-mail", JValue.str "b@x.com"), ("age", JValue.num 30)]]
    rowCount := 1 }

def exMapping : ColumnMapping :=
  { column1 := "email", column2 := "e-mail", confidence := 9 / 10,
    reason := "synonym", mergedName := "email" }

def exMappings : List ColumnMapping := [exMapping]

/-- Sanity check: on the specification's concrete scenario the embedded
engine produces the expected header list. -/
theorem scenario_headers :
    (mergeFiles exFileA exFileB exMappings).headers =
      ["name", "email", "age"] := by rfl

/-- Sanity check: on the specification's concrete scenario the embedded
engine produces the expected rows, with an explicit `null` cross-fill. -/
theorem scenario_data :
    (mergeFiles exFileA exFileB exMappings).data =
      [[("name", JValue.str "Ann"), ("email", JValue.str "a@x.com"),
          ("age", JValue.null)],
        [("name", JValue.null), ("email", JValue.str "b@x.com"),
          ("age", JValue.num 30)]] := by rfl

/-! ### The claims -/

/-- C1: for all datasets A, B and any correspondence list, the merged
dataset has exactly rowCount(A) + rowCount(B) rows — no row is added,
removed, or deduplicated — and its `rowCount` field equals the length of
its `data` array. -/
theorem C1_row_count (file1 file2 : ParsedFile) (mappings : List ColumnMapping)
    (h1 : file1.rowCount = file1.data.length)
    (h2 : file2.rowCount = file2.data.length) :
    (mergeFiles file1 file2 mappings).rowCount =
        file1.rowCount + file2.rowCount ∧
      (mergeFiles file1 file2 mappings).rowCount =
        (mergeFiles file1 file2 mappings).data.length := by
  refine ⟨?_, rfl⟩
  simp [mergeFiles, h1, h2]

theorem C1_row_count_witness :
    (mergeFiles exFileA exFileB exMappings).rowCount =
        exFileA.rowCount + exFileB.rowCount ∧
      (mergeFiles exFileA exFileB exMappings).rowCount =
        (mergeFiles exFileA exFileB exMappings).data.length :=
  C1_row_count exFileA exFileB exMappings (by rfl) (by rfl)

/-- C2: the output headers are exactly A's headers not consumed by any
correspondence (in A's order), then the mergedName of each correspondence
(in list order), then B's headers not consumed by any correspondence (in
B's order). -/
theorem C2_header_order (file1 file2 : ParsedFile)
    (mappings : List ColumnMapping) :
    (mergeFiles file1 file2 mappings).headers =
      file1.headers.filter
          (fun h => decide (h ∉ mappings.map (fun m => m.column1)))
        ++ mappings.map (fun m => m.mergedName)
        ++ file2.headers.filter
          (fun h => decide (h ∉ mappings.map (fun m => m.column2))) := by
  show unmapped1 file1 mappings ++ _ ++ unmapped2 file2 mappings = _
  unfold unmapped1 unmapped2
  congr 1
  · congr 1
    apply List.filter_congr
    intro h _
    by_cases hm : h ∈ mappings.map (fun m => m.column1) <;>
      simp [usedColumns1, List.elem_eq_mem, hm]
  · apply List.filter_congr
    intro h _
    by_cases hm : h ∈ mappings.map (fun m => m.column2) <;>
      simp [mappingMapKeys, List.elem_eq_mem, hm]

/-- Inputs refuting C3: the correspondence is valid, but its `mergedName`
`"x"` is also an unmapped column of file B, so the per-row `null`
cross-fill overwrites the mapped value. -/
def c3FileA : ParsedFile :=
  { name := "A", headers := ["a"], data := [[("a", JValue.str "v")]],
    rowCount := 1 }

def c3FileB : ParsedFile :=
  { name := "B", headers := ["b", "x"], data := [], rowCount := 0 }

def c3Mappings : List ColumnMapping :=
  [{ column1 := "a", column2 := "b", confidence := 1, reason := "r",
     mergedName := "x" }]

/-- C3 fails as stated: on a valid correspondence list (even with pairwise
distinct merged names), the output field named `mergedName` of the A-origin
row is `null`, not the A-row's value at `columnFromA`. -/
theorem C3_counterexample :
    ValidMappings c3FileA c3FileB c3Mappings ∧
      (c3Mappings.map (fun m => m.mergedName)).Nodup ∧
      getV ((mergeFiles c3FileA c3FileB c3Mappings).data.headD []) "x" =
        JValue.null ∧
      getV (c3FileA.data.headD []) "a" = JValue.str "v" ∧
      JValue.null ≠ JValue.str "v" :=
  ⟨by decide, by decide, rfl, rfl, by decide⟩

/-- C3 (amended): mapped-field correctness holds for every valid
correspondence list whose merged names are pairwise distinct and do not
collide with an unmapped B-side column: the merged rows are the two mapped
blocks in order, every A-origin row carries `A_row[columnFromA]` in the
field `mergedName`, and every B-origin row carries `B_row[columnFromB]`
there. -/
theorem C3_mapped_fields (file1 file2 : ParsedFile)
    (mappings : List ColumnMapping)
    (valid : ValidMappings file1 file2 mappings)
    (hnodup : (mappings.map (fun m => m.mergedName)).Nodup)
    (hno2 : ∀ m ∈ mappings, m.mergedName ∉ unmapped2 file2 mappings) :
    (mergeFiles file1 file2 mappings).data =
        file1.data.map (mergeRow1 file1 file2 mappings)
          ++ file2.data.map (mergeRow2 file1 file2 mappings) ∧
      (∀ row ∈ file1.data, ∀ m ∈ mappings,
        getV (mergeRow1 file1 file2 mappings row) m.mergedName =
          getV row m.column1) ∧
      (∀ row ∈ file2.data, ∀ m ∈ mappings,
        getV (mergeRow2 file1 file2 mappings row) m.mergedName =
          getV row m.column2) := by
  refine ⟨rfl, ?_, ?_⟩
  · intro row _ m hm
    exact mergeRow1_getV_merged _ _ _ _ m hm hnodup (hno2 m hm)
  · intro row _ m hm
    exact mergeRow2_getV_merged _ _ _ _ m hm hnodup (hno2 m hm)

theorem C3_mapped_fields_witness :
    getV
        (mergeRow1 exFileA exFileB exMappings
          [("email", JValue.str "a@x.com"), ("name", JValue.str "Ann")])
        exMapping.mergedName =
      getV [("email", JValue.str "a@x.com"), ("name", JValue.str "Ann")]
        exMapping.column1 :=
  (C3_mapped_fields exFileA exFileB exMappings (by decide) (by decide)
      (by decide)).2.1
    [("email", JValue.str "a@x.com"), ("name", JValue.str "Ann")]
    (by simp [exFileA]) exMapping (by simp [exMappings])

/-- Inputs refuting C4's B-side half: the two files share the column name
`"x"`, with no correspondences at all. -/
def c4FileA : ParsedFile :=
  { name := "A", headers := ["x"], data := [], rowCount := 0 }

def c4FileB : ParsedFile :=
  { name := "B", headers := ["x"], data := [[("x", JValue.str "v")]],
    rowCount := 1 }

/-- C4 fails as stated: the only output row originates from B, the column
`"x"` is an unmapped A-side column, yet the output field holds the B-row's
value `"v"` instead of the "no value" marker. -/
theorem C4_counterexample :
    "x" ∈ unmapped1 c4FileA [] ∧
      getV ((mergeFiles c4FileA c4FileB []).data.headD []) "x" =
        JValue.str "v" ∧
      isNoValue (JValue.str "v") = false :=
  ⟨by decide, rfl, rfl⟩

/-- C4 (amended): for A-origin rows, every unmapped B-side column is the
explicit `null` marker, unconditionally; for B-origin rows, an unmapped
A-side column is the `null` marker provided its own name is not also a
correspondence's `mergedName` or an unmapped B-side column — with no
restriction on the rest of the input. -/
theorem C4_cross_fill (file1 file2 : ParsedFile)
    (mappings : List ColumnMapping) :
    (mergeFiles file1 file2 mappings).data =
        file1.data.map (mergeRow1 file1 file2 mappings)
          ++ file2.data.map (mergeRow2 file1 file2 mappings) ∧
      (∀ row ∈ file1.data, ∀ h ∈ unmapped2 file2 mappings,
        getV (mergeRow1 file1 file2 mappings row) h = JValue.null) ∧
      (∀ row ∈ file2.data, ∀ h ∈ unmapped1 file1 mappings,
        h ∉ mappings.map (fun m => m.mergedName) →
        h ∉ unmapped2 file2 mappings →
        getV (mergeRow2 file1 file2 mappings row) h = JValue.null) := by
  refine ⟨rfl, ?_, ?_⟩
  · intro row _ h hh
    exact mergeRow1_getV_unmapped2 _ _ _ _ h hh
  · intro row _ h hh hnm hn2
    exact mergeRow2_getV_unmapped1 _ _ _ _ h hh hnm hn2

theorem C4_cross_fill_witness :
    getV
        (mergeRow2 exFileA exFileB exMappings
          [("e-mail", JValue.str "b@x.com"), ("age", JValue.num 30)])
        "name" = JValue.null :=
  (C4_cross_fill exFileA exFileB exMappings).2.2
    [("e-mail", JValue.str "b@x.com"), ("age", JValue.num 30)]
    (by simp [exFileB]) "name" (by decide) (by decide) (by decide)

/-- Inputs refuting C5's A-side half: the two files share the unmapped
column name `"x"`, so the B-side `null` initialization overwrites the
copied A value in each A-origin row. -/
def c5FileA : ParsedFile :=
  { name := "A", headers := ["x"], data := [[("x", JValue.str "v")]],
    rowCount := 1 }

def c5FileB : ParsedFile :=
  { name := "B", headers := ["x"], data := [], rowCount := 0 }

/-- C5 fails as stated: the single output row is the first (A-origin) row,
`"x"` is an unmapped A-side column, yet its projection is `null` rather
than the A-row's value `"v"`. -/
theorem C5_counterexample :
    "x" ∈ unmapped1 c5FileA [] ∧
      getV ((mergeFiles c5FileA c5FileB []).data.headD []) "x" =
        JValue.null ∧
      getV (c5FileA.data.headD []) "x" = JValue.str "v" ∧
      JValue.null ≠ JValue.str "v" :=
  ⟨by decide, rfl, rfl, by decide⟩

/-- C5 (amended): the first rowCount(A) output rows are A's rows mapped in
original order and the trailing rowCount(B) rows are B's rows mapped in
original order, unconditionally; the projection onto B's unmapped columns
matches B's data unconditionally, and the projection onto an unmapped A
column matches A's data provided that column's name is not also a
correspondence's `mergedName` or an unmapped B column. -/
theorem C5_order_preservation (file1 file2 : ParsedFile)
    (mappings : List ColumnMapping) :
    (mergeFiles file1 file2 mappings).data.take file1.data.length =
        file1.data.map (mergeRow1 file1 file2 mappings) ∧
      (mergeFiles file1 file2 mappings).data.drop file1.data.length =
        file2.data.map (mergeRow2 file1 file2 mappings) ∧
      (∀ row ∈ file1.data, ∀ h ∈ unmapped1 file1 mappings,
        h ∉ mappings.map (fun m => m.mergedName) →
        h ∉ unmapped2 file2 mappings →
        getV (mergeRow1 file1 file2 mappings row) h = getV row h) ∧
      (∀ row ∈ file2.data, ∀ h ∈ unmapped2 file2 mappings,
        getV (mergeRow2 file1 file2 mappings row) h = getV row h) := by
  refine ⟨?_, ?_, ?_, ?_⟩
  · show (file1.data.map (mergeRow1 file1 file2 mappings)
        ++ file2.data.map (mergeRow2 file1 file2 mappings)).take _ = _
    rw [← List.length_map file1.data (mergeRow1 file1 file2 mappings)]
    exact List.take_left _ _
  · show (file1.data.map (mergeRow1 file1 file2 mappings)
        ++ file2.data.map (mergeRow2 file1 file2 mappings)).drop _ = _
    rw [← List.length_map file1.data (mergeRow1 file1 file2 mappings)]
    exact List.drop_left _ _
  · intro row _ h hh hnm hn2
    exact mergeRow1_getV_unmapped1 _ _ _ _ h hh hnm hn2
  · intro row _ h hh
    exact mergeRow2_getV_unmapped2 _ _ _ _ h hh

theorem C5_order_preservation_witness :
    getV
        (mergeRow1 exFileA exFileB exMappings
          [("email", JValue.str "a@x.com"), ("name", JValue.str "Ann")])
        "name" =
      getV [("email", JValue.str "a@x.com"), ("name", JValue.str "Ann")]
        "name" :=
  (C5_order_preservation exFileA exFileB exMappings).2.2.1
    [("email", JValue.str "a@x.com"), ("name", JValue.str "Ann")]
    (by simp [exFileA]) "name" (by decide) (by decide) (by decide)

/-- C6: with no correspondences and non-colliding column names, the output
columns are A's followed by B's, and the rows are A's rows then B's rows,
each filled with the `null` marker on the other side's columns and carrying
its own values on its own columns. -/
theorem C6_no_mapping_identity (file1 file2 : ParsedFile)
    (hdisj : ∀ h ∈ file1.headers, h ∉ file2.headers) :
    (mergeFiles file1 file2 []).headers =
        file1.headers ++ file2.headers ∧
      (mergeFiles file1 file2 []).data =
        file1.data.map (mergeRow1 file1 file2 [])
          ++ file2.data.map (mergeRow2 file1 file2 []) ∧
      (∀ row ∈ file1.data,
        (∀ h ∈ file1.headers,
          getV (mergeRow1 file1 file2 [] row) h = getV row h) ∧
        (∀ h ∈ file2.headers,
          getV (mergeRow1 file1 file2 [] row) h = JValue.null)) ∧
      (∀ row ∈ file2.data,
        (∀ h ∈ file1.headers,
          getV (mergeRow2 file1 file2 [] row) h = JValue.null) ∧
        (∀ h ∈ file2.headers,
          getV (mergeRow2 file1 file2 [] row) h = getV row h)) := by
  have hu1 : unmapped1 file1 [] = file1.headers := by
    simp [unmapped1, usedColumns1]
  have hu2 : unmapped2 file2 [] = file2.headers := by
    simp [unmapped2, mappingMapKeys]
  refine ⟨?_, rfl, ?_, ?_⟩
  · show unmapped1 file1 [] ++ _ ++ unmapped2 file2 [] = _
    rw [hu1, hu2]
    simp
  · intro row _
    refine ⟨?_, ?_⟩
    · intro h hh
      exact mergeRow1_getV_unmapped1 _ _ _ _ h (hu1 ▸ hh) (by simp)
        (fun hc => hdisj h hh (hu2 ▸ hc))
    · intro h hh
      exact mergeRow1_getV_unmapped2 _ _ _ _ h (hu2 ▸ hh)
  · intro row _
    refine ⟨?_, ?_⟩
    · intro h hh
      exact mergeRow2_getV_unmapped1 _ _ _ _ h (hu1 ▸ hh) (by simp)
        (fun hc => hdisj h hh (hu2 ▸ hc))
    · intro h hh
      exact mergeRow2_getV_unmapped2 _ _ _ _ h (hu2 ▸ hh)

theorem C6_no_mapping_identity_witness :
    (mergeFiles exFileA exFileB []).headers =
      exFileA.headers ++ exFileB.headers :=
  (C6_no_mapping_identity exFileA exFileB (by decide)).1

/-- Inputs refuting C7: two correspondences with the same `mergedName`. -/
def c7FileA : ParsedFile :=
  { name := "A", headers := ["a", "c"], data := [], rowCount := 0 }

def c7FileB : ParsedFile :=
  { name := "B", headers := ["b", "d"], data := [], rowCount := 0 }

def c7Mappings : List ColumnMapping :=
  [{ column1 := "a", column2 := "b", confidence := 1, reason := "r",
     mergedName := "x" },
   { column1 := "c", column2 := "d", confidence := 1, reason := "r",
     mergedName := "x" }]

/-- C7 fails as stated: two correspondences share the `mergedName` `"x"`,
and the output column list contains `"x"` twice — the duplicate is not
collapsed to its first occurrence. -/
theorem C7_counterexample :
    c7Mappings.map (fun m => m.mergedName) = ["x", "x"] ∧
      (mergeFiles c7FileA c7FileB c7Mappings).headers = ["x", "x"] ∧
      ((mergeFiles c7FileA c7FileB c7Mappings).headers).count "x" = 2 :=
  ⟨rfl, rfl, rfl⟩

/-- C7 (amended): the output column list is the plain concatenation of A's
unmapped columns, the merged names, and B's unmapped columns — a colliding
name appears once per occurrence, never deduplicated — and it is
duplicate-free exactly when the three blocks are duplicate-free and
pairwise disjoint. -/
theorem C7_header_duplicates (file1 file2 : ParsedFile)
    (mappings : List ColumnMapping) :
    (∀ nm : String,
        ((mergeFiles file1 file2 mappings).headers).count nm =
          (unmapped1 file1 mappings).count nm
            + (mappings.map (fun m => m.mergedName)).count nm
            + (unmapped2 file2 mappings).count nm) ∧
      ((mergeFiles file1 file2 mappings).headers.Nodup ↔
        (unmapped1 file1 mappings).Nodup ∧
          (mappings.map (fun m => m.mergedName)).Nodup ∧
          (unmapped2 file2 mappings).Nodup ∧
          (unmapped1 file1 mappings).Disjoint
            (mappings.map (fun m => m.mergedName)) ∧
          (unmapped1 file1 mappings).Disjoint (unmapped2 file2 mappings) ∧
          (mappings.map (fun m => m.mergedName)).Disjoint
            (unmapped2 file2 mappings)) := by
  constructor
  · intro nm
    show ((unmapped1 file1 mappings ++ _) ++ _).count nm = _
    rw [List.count_append, List.count_append]
  · show ((unmapped1 file1 mappings ++ _) ++ _).Nodup ↔ _
    rw [List.nodup_append, List.nodup_append, List.disjoint_append_left]
    tauto

/-- Inputs refuting C8: the B-row is missing the key `"b"` named by the
correspondence, but the correspondence's `mergedName` `"x"` is also an
unmapped B column holding a real value, which overwrites the marker. -/
def c8FileA : ParsedFile :=
  { name := "A", headers := ["a"], data := [], rowCount := 0 }

def c8FileB : ParsedFile :=
  { name := "B", headers := ["b", "x"], data := [[("x", JValue.str "v")]],
    rowCount := 1 }

def c8Mappings : List ColumnMapping :=
  [{ column1 := "a", column2 := "b", confidence := 1, reason := "r",
     mergedName := "x" }]

/-- C8 fails as stated: the engine reads the absent key `"b"` from the
B-origin row, yet the corresponding output field `"x"` ends up holding the
string `"v"`, which is not a "no value" marker. -/
theorem C8_counterexample :
    getV (c8FileB.data.headD []) "b" = JValue.undef ∧
      getV ((mergeFiles c8FileA c8FileB c8Mappings).data.headD []) "x" =
        JValue.str "v" ∧
      isNoValue (JValue.str "v") = false :=
  ⟨rfl, rfl, rfl⟩

/-- C8 (amended): the engine is a total function, and every field it reads
from a row where that key is absent results in a null-like output field
(`null` or `undefined`), provided merged names are pairwise distinct and
collide with no unmapped column of either side. -/
theorem C8_defensive_reads (file1 file2 : ParsedFile)
    (mappings : List ColumnMapping)
    (hnodup : (mappings.map (fun m => m.mergedName)).Nodup)
    (h1 : ∀ m ∈ mappings, m.mergedName ∉ unmapped1 file1 mappings)
    (h2 : ∀ m ∈ mappings, m.mergedName ∉ unmapped2 file2 mappings) :
    (mergeFiles file1 file2 mappings).data =
        file1.data.map (mergeRow1 file1 file2 mappings)
          ++ file2.data.map (mergeRow2 file1 file2 mappings) ∧
      (∀ row ∈ file1.data, ∀ m ∈ mappings,
        getV row m.column1 = JValue.undef →
        isNoValue (getV (mergeRow1 file1 file2 mappings row) m.mergedName) =
          true) ∧
      (∀ row ∈ file1.data, ∀ h ∈ unmapped1 file1 mappings,
        getV row h = JValue.undef →
        isNoValue (getV (mergeRow1 file1 file2 mappings row) h) = true) ∧
      (∀ row ∈ file2.data, ∀ m ∈ mappings,
        getV row m.column2 = JValue.undef →
        isNoValue (getV (mergeRow2 file1 file2 mappings row) m.mergedName) =
          true) ∧
      (∀ row ∈ file2.data, ∀ h ∈ unmapped2 file2 mappings,
        getV row h = JValue.undef →
        isNoValue (getV (mergeRow2 file1 file2 mappings row) h) = true) := by
  refine ⟨rfl, ?_, ?_, ?_, ?_⟩
  · intro row _ m hm hud
    rw [mergeRow1_getV_merged _ _ _ _ m hm hnodup (h2 m hm), hud]
    rfl
  · intro row _ h hh hud
    by_cases hc : h ∈ unmapped2 file2 mappings
    · rw [mergeRow1_getV_unmapped2 _ _ _ _ h hc]
      rfl
    · have hnm : h ∉ mappings.map (fun m => m.mergedName) := by
        intro hmem
        obtain ⟨m, hm, hme⟩ := List.mem_map.mp hmem
        exact h1 m hm (hme ▸ hh)
      rw [mergeRow1_getV_unmapped1 _ _ _ _ h hh hnm hc, hud]
      rfl
  · intro row _ m hm hud
    rw [mergeRow2_getV_merged _ _ _ _ m hm hnodup (h2 m hm), hud]
    rfl
  · intro row _ h hh hud
    rw [mergeRow2_getV_unmapped2 _ _ _ _ h hh, hud]
    rfl

/-- Collision-free inputs with a row missing its mapped key, used to
witness the amended C8. -/
def c8wFileA : ParsedFile :=
  { name := "A", headers := ["a", "n"], data := [[("n", JValue.str "Ann")]],
    rowCount := 1 }

def c8wFileB : ParsedFile :=
  { name := "B", headers := ["b"], data := [], rowCount := 0 }

def c8wMapping : ColumnMapping :=
  { column1 := "a", column2 := "b", confidence := 1, reason := "r",
    mergedName := "m" }

def c8wMappings : List ColumnMapping := [c8wMapping]

theorem C8_defensive_reads_witness :
    isNoValue
        (getV (mergeRow1 c8wFileA c8wFileB c8wMappings
          [("n", JValue.str "Ann")]) c8wMapping.mergedName) = true :=
  (C8_defensive_reads c8wFileA c8wFileB c8wMappings (by decide) (by decide)
      (by decide)).2.1
    [("n", JValue.str "Ann")] (by simp [c8wFileA]) c8wMapping
    (by simp [c8wMappings]) (by decide)

/-- C9: the merge route rejects with a 400-style error exactly when a file
is missing or the mappings payload is not an array; otherwise it returns
the engine's result unchanged. -/
theorem C9_boundary (file1 file2 : Option ParsedFile)
    (mp : MappingsPayload) :
    ((∃ msg, POST file1 file2 mp = MergeResponse.badRequest msg) ↔
        file1 = none ∨ file2 = none ∨ mp = MappingsPayload.nonArray) ∧
      (∀ f1 f2 ms, file1 = some f1 → file2 = some f2 →
        mp = MappingsPayload.array ms →
        POST file1 file2 mp = MergeResponse.ok (mergeFiles f1 f2 ms)) := by
  cases file1 with
  | none => cases file2 <;> cases mp <;> simp [POST]
  | some f1 =>
      cases file2 with
      | none => cases mp <;> simp [POST]
      | some f2 => cases mp <;> simp [POST]

theorem C9_boundary_witness :
    POST (some exFileA) (some exFileB) (MappingsPayload.array exMappings) =
      MergeResponse.ok (mergeFiles exFileA exFileB exMappings) :=
  (C9_boundary (some exFileA) (some exFileB)
      (MappingsPayload.array exMappings)).2 exFileA exFileB exMappings
    rfl rfl rfl

/-- C10: every merged row has an entry for every output header and no
others — its key set coincides with the output header list as a set. -/
theorem C10_row_key_sets (file1 file2 : ParsedFile)
    (mappings : List ColumnMapping) :
    ∀ row ∈ (mergeFiles file1 file2 mappings).data, ∀ k : String,
      k ∈ rowKeys row ↔ k ∈ (mergeFiles file1 file2 mappings).headers := by
  intro row hrow k
  have hrow' : row ∈ file1.data.map (mergeRow1 file1 file2 mappings)
      ++ file2.data.map (mergeRow2 file1 file2 mappings) := hrow
  rcases List.mem_append.mp hrow' with h | h
  · obtain ⟨r, _, rfl⟩ := List.mem_map.mp h
    exact mergeRow1_rowKeys file1 file2 mappings r k
  · obtain ⟨r, _, rfl⟩ := List.mem_map.mp h
    exact mergeRow2_rowKeys file1 file2 mappings r k

theorem C10_row_key_sets_witness :
    "name" ∈
        rowKeys ((mergeFiles exFileA exFileB exMappings).data.headD []) ↔
      "name" ∈ (mergeFiles exFileA exFileB exMappings).headers :=
  C10_row_key_sets exFileA exFileB exMappings
    ((mergeFiles exFileA exFileB exMappings).data.headD []) (by decide)
    "name"

end MyApp
